import Mathlib

/-!
Shallow embedding of the foxwaf middleware (writer.go, coraza.go).

The repository wraps a fox `ResponseWriter` in an `rwInterceptor` that defers
the status line, buffers or passes through body bytes, and enforces the
verdicts ("interruptions") of an external Coraza transaction. The transaction
(the inspection engine) is an opaque collaborator: we model its observable
state (interruption flag, accumulated response headers, response-body buffer)
explicitly, and its rule-evaluation decisions through a behaviour oracle
(`TxBehavior`), which fixes what each phase evaluation returns.
-/

namespace Foxwaf

/-- A response header map, as `http.Header`: keys with a list of values. -/
abbrev Headers := List (String × List String)

/-- The keys of a header map. -/
def hdrKeys (h : Headers) : List String := h.map Prod.fst

/-- `http.Header.Del`: remove every entry with the given key. -/
def hdrDel (h : Headers) (k : String) : Headers :=
  h.filter (fun kv => kv.1 != k)

/-- `http.Header.Set`: replace the entry for the key by a single value. -/
def hdrSet (h : Headers) (k : String) (v : String) : Headers :=
  hdrDel h k ++ [(k, [v])]

/-- `rwInterceptor.cleanHeaders` (writer.go): delete every key of the map,
    one `Del` per key, as the Go range-and-delete loop does. -/
def hdrClean (h : Headers) : Headers :=
  (hdrKeys h).foldl hdrDel h

/-- `types.Interruption`: an immutable verdict with an action and an
    optional explicit status (0 meaning unset, as in Go). -/
structure Interruption where
  action : String
  status : Nat
  deriving Repr, DecidableEq

/-- `obtainStatusCodeFromInterruptionOrDefault` (coraza.go): on action
    "deny" return the explicit status, or 403 when it is unset (0);
    otherwise return the default status unchanged. -/
def obtainStatusCodeFromInterruptionOrDefault (it : Interruption)
    (defaultStatusCode : Nat) : Nat :=
  if it.action = "deny" then
    if it.status = 0 then 403 else it.status
  else defaultStatusCode

/-- Behaviour oracle of the Coraza transaction: what each engine-driven
    evaluation decides. The engine is a black box; each field fixes the
    outcome of one collaborator call. -/
structure TxBehavior where
  /-- `IsRuleEngineOff` -/
  ruleEngineOff : Bool
  /-- `IsResponseBodyAccessible` -/
  respBodyAccessible : Bool
  /-- `IsResponseBodyProcessable` -/
  respBodyProcessable : Bool
  /-- decision of `ProcessResponseHeaders status proto` (when not already
      interrupted) -/
  phase3 : Nat → String → Option Interruption
  /-- decision of `WriteResponseBody chunk` given the buffer so far and the
      chunk: optional interruption, bytes consumed, optional error -/
  phase4Write : List Nat → List Nat → Option Interruption × Nat × Option String
  /-- decision of `ProcessResponseBody`: a failure or an optional verdict -/
  phase4 : Except String (Option Interruption)
  /-- whether `ResponseBodyReader` succeeds -/
  bodyReaderOk : Bool
  /-- outcome of the request phases as observed by `Intercept`
      (`processRequest`): a failure, a verdict, or clean pass -/
  reqPhase : Except String (Option Interruption)

/-- Observable state of the Coraza transaction (`types.Transaction`):
    a standing interruption is absorbing, response headers and the
    response-body buffer accumulate, and `ProcessLogging`/`Close` are
    counted so lifecycle claims can be stated. -/
structure Tx where
  behavior : TxBehavior
  interruption : Option Interruption := none
  respHeaders : List (String × String) := []
  respBuffer : List Nat := []
  loggingCount : Nat := 0
  closeCount : Nat := 0

/-- `Transaction.IsInterrupted` -/
def Tx.IsInterrupted (tx : Tx) : Bool := tx.interruption.isSome

/-- `Transaction.IsRuleEngineOff` -/
def Tx.IsRuleEngineOff (tx : Tx) : Bool := tx.behavior.ruleEngineOff

/-- `Transaction.IsResponseBodyAccessible` -/
def Tx.IsResponseBodyAccessible (tx : Tx) : Bool := tx.behavior.respBodyAccessible

/-- `Transaction.IsResponseBodyProcessable` -/
def Tx.IsResponseBodyProcessable (tx : Tx) : Bool := tx.behavior.respBodyProcessable

/-- `Transaction.AddResponseHeader` -/
def Tx.AddResponseHeader (tx : Tx) (k v : String) : Tx :=
  { tx with respHeaders := tx.respHeaders ++ [(k, v)] }

/-- `Transaction.ProcessResponseHeaders`: returns the standing interruption
    when one exists, else consults the engine (oracle) and records any new
    interruption. -/
def Tx.ProcessResponseHeaders (tx : Tx) (status : Nat) (proto : String) :
    Tx × Option Interruption :=
  match tx.interruption with
  | some it => (tx, some it)
  | none =>
    match tx.behavior.phase3 status proto with
    | some it => ({ tx with interruption := some it }, some it)
    | none => (tx, none)

/-- `Transaction.WriteResponseBody`: append up to `n` consumed bytes to the
    transaction's response buffer; the engine may interrupt or fail. -/
def Tx.WriteResponseBody (tx : Tx) (b : List Nat) :
    Tx × Option Interruption × Nat × Option String :=
  match tx.interruption with
  | some it => (tx, some it, 0, none)
  | none =>
    match tx.behavior.phase4Write tx.respBuffer b with
    | (some it, n, e) =>
      ({ tx with interruption := some it, respBuffer := tx.respBuffer ++ b.take n },
        some it, n, e)
    | (none, n, e) =>
      ({ tx with respBuffer := tx.respBuffer ++ b.take n }, none, n, e)

/-- `Transaction.ProcessResponseBody` -/
def Tx.ProcessResponseBody (tx : Tx) : Tx × Except String (Option Interruption) :=
  match tx.interruption with
  | some it => (tx, .ok (some it))
  | none =>
    match tx.behavior.phase4 with
    | .error e => (tx, .error e)
    | .ok (some it) => ({ tx with interruption := some it }, .ok (some it))
    | .ok none => (tx, .ok none)

/-- `Transaction.ResponseBodyReader`: the buffered response body. -/
def Tx.ResponseBodyReader (tx : Tx) : Except String (List Nat) :=
  if tx.behavior.bodyReaderOk then .ok tx.respBuffer
  else .error "reader failure"

/-- `Transaction.ProcessLogging` (phase 5, counted). -/
def Tx.ProcessLogging (tx : Tx) : Tx :=
  { tx with loggingCount := tx.loggingCount + 1 }

/-- `Transaction.Close` (resource release, counted). -/
def Tx.Close (tx : Tx) : Tx :=
  { tx with closeCount := tx.closeCount + 1 }

/-- The downstream (delegate) fox `ResponseWriter`: staged headers, the
    sequence of status-line writes it received, and the body bytes written
    through to it. -/
structure DWriter where
  headers : Headers := []
  statusWrites : List Nat := []
  body : List Nat := []

/-- Downstream `WriteHeader`: record one status-line write. -/
def DWriter.WriteHeader (w : DWriter) (s : Nat) : DWriter :=
  { w with statusWrites := w.statusWrites ++ [s] }

/-- Downstream `Write`: append the bytes, reporting all written. -/
def DWriter.Write (w : DWriter) (b : List Nat) : DWriter × Nat :=
  ({ w with body := w.body ++ b }, b.length)

/-- `notWritten` sentinel for `rwInterceptor.size`. -/
def notWritten : Int := -1

/-- `rwInterceptor` (writer.go): the stateful decorator around the real
    response writer, holding the transaction it reports to. -/
structure RWI where
  w : DWriter
  tx : Tx
  proto : String
  statusCode : Nat
  size : Int
  isWriteHeaderFlush : Bool
  wroteHeader : Bool

/-- `rwInterceptor.Status` -/
def RWI.Status (i : RWI) : Nat := i.statusCode

/-- `rwInterceptor.Written`: true iff `size != notWritten`. -/
def RWI.Written (i : RWI) : Bool := i.size != notWritten

/-- `rwInterceptor.Size`: negative sizes read as 0. -/
def RWI.Size (i : RWI) : Int := if i.size < 0 then 0 else i.size

/-- `rwInterceptor.flushWriteHeader`: send the recorded status code to the
    delegate writer, at most once, guarded by `isWriteHeaderFlush`. -/
def RWI.flushWriteHeader (i : RWI) : RWI :=
  if !i.isWriteHeaderFlush then
    { i with w := i.w.WriteHeader i.statusCode, isWriteHeaderFlush := true }
  else i

/-- `rwInterceptor.overrideWriteHeader`: override the recorded status code. -/
def RWI.overrideWriteHeader (i : RWI) (statusCode : Nat) : RWI :=
  { i with statusCode := statusCode, size := 0 }

/-- `rwInterceptor.cleanHeaders`: remove all headers staged downstream. -/
def RWI.cleanHeaders (i : RWI) : RWI :=
  { i with w := { i.w with headers := hdrClean i.w.headers } }

/-- `w.Header().Set k v` as performed through the interceptor. -/
def RWI.setHeader (i : RWI) (k v : String) : RWI :=
  { i with w := { i.w with headers := hdrSet i.w.headers k v } }

/-- The header-copy loop at the top of `rwInterceptor.WriteHeader`: every
    staged downstream header value is added to the transaction. -/
def Tx.addAllHeaders (tx : Tx) (hs : Headers) : Tx :=
  hs.foldl (fun t kv => kv.2.foldl (fun t' v => t'.AddResponseHeader kv.1 v) t) tx

/-- `rwInterceptor.WriteHeader` (writer.go): superfluous calls are ignored;
    otherwise stage headers into the transaction, record the status, run the
    response-header phase; on a verdict clean headers, force
    `Content-Length: 0`, resolve the status and flush immediately; on no
    verdict mark the header recorded without flushing. -/
def RWI.WriteHeader (i : RWI) (statusCode : Nat) : RWI :=
  if i.wroteHeader then i
  else
    let i1 : RWI := { i with tx := i.tx.addAllHeaders i.w.headers,
                             statusCode := statusCode, size := 0 }
    match i1.tx.ProcessResponseHeaders statusCode i1.proto with
    | (tx2, some it) =>
      let i2 : RWI := { i1 with tx := tx2 }
      let i3 := i2.cleanHeaders
      let i4 := i3.setHeader "Content-Length" "0"
      let i5 : RWI := { i4 with
        statusCode := obtainStatusCodeFromInterruptionOrDefault it i4.statusCode }
      i5.flushWriteHeader
    | (tx2, none) => { i1 with tx := tx2, wroteHeader := true }

/-- `rwInterceptor.Write` (writer.go): discard bytes under a standing
    interruption; implicitly record a 200 header first; buffer into the
    transaction when the body is accessible and processable (blocking on a
    verdict); otherwise flush the deferred status and pass the bytes through. -/
def RWI.Write (i : RWI) (b : List Nat) : RWI × Nat × Option String :=
  if i.tx.IsInterrupted then (i, 0, none)
  else
    let i0 := if !i.wroteHeader then i.WriteHeader 200 else i
    if i0.tx.IsResponseBodyAccessible && i0.tx.IsResponseBodyProcessable then
      match i0.tx.WriteResponseBody b with
      | (tx1, some it, _, _) =>
        let i1 : RWI := { i0 with tx := tx1 }
        let i2 := i1.cleanHeaders
        let i3 := i2.setHeader "Content-Length" "0"
        let i4 := i3.overrideWriteHeader
          (obtainStatusCodeFromInterruptionOrDefault it i3.statusCode)
        (i4.flushWriteHeader, 0, none)
      | (tx1, none, n, err) =>
        ({ i0 with tx := tx1, size := i0.size + n }, n, err)
    else
      let i1 := i0.flushWriteHeader
      let r := i1.w.Write b
      ({ i1 with w := r.1, size := i1.size + r.2 }, r.2, none)

/-- `rwInterceptor.FlushError` (writer.go): implicit `WriteHeader 200` when
    no header has been recorded; always returns nil. -/
def RWI.FlushError (i : RWI) : RWI × Option String :=
  if !i.wroteHeader then (i.WriteHeader 200, none) else (i, none)

/-- `rwInterceptor.reset` (writer.go): re-initialise a pooled instance for a
    new request. -/
def RWI.reset (_ : RWI) (tx : Tx) (writer : DWriter) (proto : String) : RWI :=
  { w := writer, tx := tx, statusCode := 200, proto := proto,
    size := notWritten, isWriteHeaderFlush := false, wroteHeader := false }

/-- `processResponse` (coraza.go): nothing under a standing interruption;
    otherwise run the response-body phase when accessible and processable
    (500 on failure, block on a verdict, else flush and copy the buffered
    body back); when not inspected just flush the deferred status. -/
def processResponse (i : RWI) : RWI × Option String :=
  if i.tx.IsInterrupted then (i, none)
  else if i.tx.IsResponseBodyAccessible && i.tx.IsResponseBodyProcessable then
    match i.tx.ProcessResponseBody with
    | (tx1, .error e) =>
      let i1 : RWI := { i with tx := tx1 }
      (((i1.overrideWriteHeader 500).flushWriteHeader), some e)
    | (tx1, .ok (some it)) =>
      let i1 : RWI := { i with tx := tx1 }
      let i2 := i1.cleanHeaders
      let i3 := i2.setHeader "Content-Length" "0"
      let i4 := i3.overrideWriteHeader
        (obtainStatusCodeFromInterruptionOrDefault it i3.statusCode)
      (i4.flushWriteHeader, none)
    | (tx1, .ok none) =>
      let i1 : RWI := { i with tx := tx1 }
      match i1.tx.ResponseBodyReader with
      | .error e =>
        (((i1.overrideWriteHeader 500).flushWriteHeader), some e)
      | .ok buf =>
        let i2 := i1.flushWriteHeader
        let r := i2.w.Write buf
        ({ i2 with w := r.1 }, none)
  else
    (i.flushWriteHeader, none)

/-- One interaction with the interceptor: a handler call (`WriteHeader`,
    `Write`, `FlushError` — `WriteString` and `ReadFrom` funnel through
    `Write`), a direct `flushWriteHeader`, or the response phase driver. -/
inductive Op where
  | writeHeader (s : Nat)
  | write (b : List Nat)
  | flushError
  | flushHeader
  | procResponse
  deriving Repr

/-- Apply one interaction to the interceptor state. -/
def applyOp (i : RWI) : Op → RWI
  | .writeHeader s => i.WriteHeader s
  | .write b => (i.Write b).1
  | .flushError => (i.FlushError).1
  | .flushHeader => i.flushWriteHeader
  | .procResponse => (processResponse i).1

/-- Run a sequence of interactions. -/
def runOps (i : RWI) (ops : List Op) : RWI := ops.foldl applyOp i

/-- `strings.LastIndexByte` over the characters of the remote address. -/
def lastIndexByte : List Char → Char → Option Int
  | [], _ => none
  | a :: rest, c =>
    match lastIndexByte rest c with
    | some i => some (i + 1)
    | none => if a = c then some 0 else none

/-- A digit character's value, if it is one. -/
def digitToNat (c : Char) : Option Nat :=
  if c.isDigit then some (c.toNat - 48) else none

/-- The value of a non-empty all-digit string, else `none`. -/
def digitsToNat (l : List Char) : Option Nat :=
  if l = [] then none
  else l.foldl (fun acc c =>
    match acc, digitToNat c with
    | some n, some d => some (n * 10 + d)
    | _, _ => none) (some 0)

/-- `strconv.Atoi` with the error ignored, as `processRequest` does:
    a failed parse leaves the port at 0. -/
def atoiOrZero (l : List Char) : Int :=
  match l with
  | '-' :: rest =>
    match digitsToNat rest with
    | some n => -(n : Int)
    | none => 0
  | '+' :: rest =>
    match digitsToNat rest with
    | some n => (n : Int)
    | none => 0
  | _ =>
    match digitsToNat l with
    | some n => (n : Int)
    | none => 0

/-- The remote-address split of `processRequest` (coraza.go): `client` and
    `cport` start at `""`/`0`; only when a `:` occurs are they set from the
    pieces around its last occurrence. The pair is what reaches
    `tx.ProcessConnection(client, cport, "", 0)`. -/
def splitRemoteAddr (remoteAddr : List Char) : List Char × Int :=
  match lastIndexByte remoteAddr ':' with
  | none => ([], 0)
  | some idx => (remoteAddr.take idx.toNat, atoiOrZero (remoteAddr.drop (idx.toNat + 1)))

/-- Outcome of `processRequest` as `Intercept` observes it. The request
    phases (connection, URI, headers, body buffering) are driven by the
    opaque engine; the oracle fixes their joint outcome and a verdict is
    recorded on the transaction. -/
def processRequestOutcome (tx : Tx) : Tx × Except String (Option Interruption) :=
  match tx.behavior.reqPhase with
  | .error e => (tx, .error e)
  | .ok (some it) => ({ tx with interruption := some it }, .ok (some it))
  | .ok none => (tx, .ok none)

/-- Result of one request through the middleware. -/
structure InterceptOut where
  tx : Tx
  writer : DWriter
  handlerInvoked : Bool

/-- The deferred transaction finalisation in `Intercept` (coraza.go):
    `tx.ProcessLogging()` then `tx.Close()`, run on every exit path. -/
def finishTx (tx : Tx) : Tx := tx.ProcessLogging.Close

/-- `WAF.Intercept` (coraza.go): create a transaction, defer its
    finalisation; pass through when the rule engine is off; stop on a
    request-phase failure, answer a request-phase verdict with its resolved
    status; otherwise reset a pooled interceptor onto the writer, run the
    handler through it, then drive the response phase. The handler is
    abstracted as the interceptor interactions it performs. -/
def Intercept (behavior : TxBehavior) (handlerOps : List Op) (pooled : RWI)
    (cw : DWriter) (proto : String) : InterceptOut :=
  let tx : Tx := { behavior := behavior }
  if tx.IsRuleEngineOff then
    { tx := finishTx tx, writer := cw, handlerInvoked := true }
  else
    match processRequestOutcome tx with
    | (tx1, .error _) =>
      { tx := finishTx tx1, writer := cw, handlerInvoked := false }
    | (tx1, .ok (some it)) =>
      { tx := finishTx tx1,
        writer := cw.WriteHeader (obtainStatusCodeFromInterruptionOrDefault it 200),
        handlerInvoked := false }
    | (tx1, .ok none) =>
      let i0 := pooled.reset tx1 cw proto
      let i1 := runOps i0 handlerOps
      let (i2, _) := processResponse i1
      { tx := finishTx i2.tx, writer := i2.w, handlerInvoked := true }

/-- A "deny" verdict with no explicit status. -/
def denyAll : Interruption := { action := "deny", status := 0 }

/-- An engine that never intervenes: no phase verdicts, no failures, body
    accessible and processable. -/
def quietBehavior : TxBehavior :=
  { ruleEngineOff := false,
    respBodyAccessible := true,
    respBodyProcessable := true,
    phase3 := fun _ _ => none,
    phase4Write := fun _ b => (none, b.length, none),
    phase4 := .ok none,
    bodyReaderOk := true,
    reqPhase := .ok none }

/-- A freshly reset interceptor over a fresh downstream writer and a fresh
    transaction with the given behaviour. -/
def mkState (b : TxBehavior) : RWI :=
  { w := {}, tx := { behavior := b }, proto := "HTTP/1.1",
    statusCode := 200, size := notWritten,
    isWriteHeaderFlush := false, wroteHeader := false }

/-- A state whose transaction already carries a standing verdict. -/
def interruptedState : RWI :=
  { mkState quietBehavior with
    tx := { behavior := quietBehavior, interruption := some denyAll } }

/-- An engine whose response-body phase yields a deny verdict. -/
def phase4DenyBehavior : TxBehavior :=
  { quietBehavior with phase4 := .ok (some denyAll) }

/-- A state with three bytes already buffered on the transaction and a
    response-body phase that will deny. -/
def bufferedState : RWI :=
  { mkState phase4DenyBehavior with
    tx := { behavior := phase4DenyBehavior, respBuffer := [10, 20, 30] } }

/-- An engine whose response-body phase fails. -/
def phase4FailBehavior : TxBehavior :=
  { quietBehavior with phase4 := .error "response body phase failure" }

/-- A fresh state over the failing response-body engine. -/
def phase4FailState : RWI := mkState phase4FailBehavior

/-- An engine whose response-header phase denies every status. -/
def phase3DenyBehavior : TxBehavior :=
  { quietBehavior with phase3 := fun _ _ => some denyAll }

/-- A fresh state over the header-denying engine. -/
def phase3DenyState : RWI := mkState phase3DenyBehavior

/-- The invariant behind claim C1: the number of status-line writes the
    downstream writer has received equals the flush guard. -/
def flushInv (i : RWI) : Prop :=
  i.w.statusWrites.length = (if i.isWriteHeaderFlush then 1 else 0)

/-- Two transactions with the same lifecycle counters (`ProcessLogging`
    and `Close` call counts). Every interceptor operation and phase driver
    preserves the counters: only `Intercept`'s deferred finalisation
    touches them. -/
def countsEq (tx tx' : Tx) : Prop :=
  tx'.loggingCount = tx.loggingCount ∧ tx'.closeCount = tx.closeCount

/-! Helper lemmas. -/

theorem foldl_hdrDel_eq_nil (ks : List String) :
    ∀ h : Headers, (∀ kv ∈ h, kv.1 ∈ ks) → ks.foldl hdrDel h = [] := by
  induction ks with
  | nil =>
    intro h hmem
    have : h = [] := by
      cases h with
      | nil => rfl
      | cons a t => exact absurd (hmem a (List.mem_cons_self a t)) (by simp)
    simp [this]
  | cons k ks ih =>
    intro h hmem
    simp only [List.foldl_cons]
    apply ih
    intro kv hkv
    have hin := List.mem_filter.mp hkv
    have hne : kv.1 ≠ k := by
      have := hin.2
      simpa using this
    have := hmem kv hin.1
    rcases List.mem_cons.mp this with heq | htail
    · exact absurd heq hne
    · exact htail

theorem hdrClean_eq_nil (h : Headers) : hdrClean h = [] := by
  apply foldl_hdrDel_eq_nil
  intro kv hkv
  exact List.mem_map_of_mem Prod.fst hkv

theorem hdrSet_hdrClean (h : Headers) (k v : String) :
    hdrSet (hdrClean h) k v = [(k, [v])] := by
  rw [hdrSet, hdrClean_eq_nil]
  rfl

theorem addAllHeaders_spec (hs : Headers) :
    ∀ tx : Tx, ∃ r, tx.addAllHeaders hs = { tx with respHeaders := r } := by
  induction hs with
  | nil => intro tx; exact ⟨tx.respHeaders, rfl⟩
  | cons kv hs ih =>
    intro tx
    have inner : ∀ (vs : List String) (t : Tx),
        ∃ r, vs.foldl (fun t' v => t'.AddResponseHeader kv.1 v) t
          = { t with respHeaders := r } := by
      intro vs
      induction vs with
      | nil => intro t; exact ⟨t.respHeaders, rfl⟩
      | cons v vs ihv =>
        intro t
        simp only [List.foldl_cons]
        obtain ⟨r, hr⟩ := ihv (t.AddResponseHeader kv.1 v)
        exact ⟨r, hr⟩
    simp only [Tx.addAllHeaders, List.foldl_cons]
    obtain ⟨r1, hr1⟩ := inner kv.2 tx
    rw [hr1]
    obtain ⟨r2, hr2⟩ := ih { tx with respHeaders := r1 }
    exact ⟨r2, hr2⟩

theorem addAllHeaders_interruption (tx : Tx) (hs : Headers) :
    (tx.addAllHeaders hs).interruption = tx.interruption := by
  obtain ⟨r, hr⟩ := addAllHeaders_spec hs tx
  rw [hr]

theorem addAllHeaders_behavior (tx : Tx) (hs : Headers) :
    (tx.addAllHeaders hs).behavior = tx.behavior := by
  obtain ⟨r, hr⟩ := addAllHeaders_spec hs tx
  rw [hr]

theorem addAllHeaders_respBuffer (tx : Tx) (hs : Headers) :
    (tx.addAllHeaders hs).respBuffer = tx.respBuffer := by
  obtain ⟨r, hr⟩ := addAllHeaders_spec hs tx
  rw [hr]

theorem addAllHeaders_loggingCount (tx : Tx) (hs : Headers) :
    (tx.addAllHeaders hs).loggingCount = tx.loggingCount := by
  obtain ⟨r, hr⟩ := addAllHeaders_spec hs tx
  rw [hr]

theorem addAllHeaders_closeCount (tx : Tx) (hs : Headers) :
    (tx.addAllHeaders hs).closeCount = tx.closeCount := by
  obtain ⟨r, hr⟩ := addAllHeaders_spec hs tx
  rw [hr]

theorem processResponseHeaders_none (tx : Tx) (s : Nat) (p : String)
    (h1 : tx.interruption = none) (h2 : tx.behavior.phase3 s p = none) :
    tx.ProcessResponseHeaders s p = (tx, none) := by
  simp [Tx.ProcessResponseHeaders, h1, h2]

theorem flushWriteHeader_of_false (i : RWI) (h : i.isWriteHeaderFlush = false) :
    i.flushWriteHeader
      = { i with w := i.w.WriteHeader i.statusCode, isWriteHeaderFlush := true } := by
  simp [RWI.flushWriteHeader, h]

theorem flushWriteHeader_of_true (i : RWI) (h : i.isWriteHeaderFlush = true) :
    i.flushWriteHeader = i := by
  simp [RWI.flushWriteHeader, h]

theorem flushWriteHeader_statusWrites_of_false (i : RWI)
    (h : i.isWriteHeaderFlush = false) :
    (i.flushWriteHeader).w.statusWrites = i.w.statusWrites ++ [i.statusCode] := by
  rw [flushWriteHeader_of_false i h]
  rfl

theorem flushWriteHeader_idem (i : RWI) :
    i.flushWriteHeader.flushWriteHeader = i.flushWriteHeader := by
  by_cases h : i.isWriteHeaderFlush
  · rw [flushWriteHeader_of_true i h, flushWriteHeader_of_true i h]
  · rw [flushWriteHeader_of_false i (Bool.not_eq_true _ ▸ eq_false_of_ne_true h)]
    exact flushWriteHeader_of_true _ rfl

theorem flushWriteHeader_w_headers (i : RWI) :
    i.flushWriteHeader.w.headers = i.w.headers := by
  cases h : i.isWriteHeaderFlush
  · rw [flushWriteHeader_of_false i h]; rfl
  · rw [flushWriteHeader_of_true i h]

theorem flushWriteHeader_w_body (i : RWI) :
    i.flushWriteHeader.w.body = i.w.body := by
  cases h : i.isWriteHeaderFlush
  · rw [flushWriteHeader_of_false i h]; rfl
  · rw [flushWriteHeader_of_true i h]

theorem flushWriteHeader_tx (i : RWI) :
    i.flushWriteHeader.tx = i.tx := by
  cases h : i.isWriteHeaderFlush
  · rw [flushWriteHeader_of_false i h]
  · rw [flushWriteHeader_of_true i h]

theorem flushWriteHeader_statusCode (i : RWI) :
    i.flushWriteHeader.statusCode = i.statusCode := by
  cases h : i.isWriteHeaderFlush
  · rw [flushWriteHeader_of_false i h]
  · rw [flushWriteHeader_of_true i h]

theorem processResponseHeaders_interrupted (tx : Tx) (s : Nat) (p : String)
    (it : Interruption) (h : tx.interruption = some it) :
    tx.ProcessResponseHeaders s p = (tx, some it) := by
  simp [Tx.ProcessResponseHeaders, h]

theorem processResponseBody_verdict (tx : Tx) (it : Interruption)
    (h1 : tx.interruption = none) (h2 : tx.behavior.phase4 = .ok (some it)) :
    tx.ProcessResponseBody = ({ tx with interruption := some it }, .ok (some it)) := by
  simp [Tx.ProcessResponseBody, h1, h2]

theorem processResponseBody_failure (tx : Tx) (e : String)
    (h1 : tx.interruption = none) (h2 : tx.behavior.phase4 = .error e) :
    tx.ProcessResponseBody = (tx, .error e) := by
  simp [Tx.ProcessResponseBody, h1, h2]

theorem writeHeader_superfluous (i : RWI) (s : Nat) (h : i.wroteHeader = true) :
    i.WriteHeader s = i := by
  simp [RWI.WriteHeader, h]

theorem writeHeader_no_verdict (i : RWI) (s : Nat)
    (h1 : i.wroteHeader = false) (h2 : i.tx.interruption = none)
    (h3 : i.tx.behavior.phase3 s i.proto = none) :
    i.WriteHeader s
      = { i with tx := i.tx.addAllHeaders i.w.headers,
                 statusCode := s, size := 0, wroteHeader := true } := by
  have hint : (i.tx.addAllHeaders i.w.headers).interruption = none := by
    rw [addAllHeaders_interruption]; exact h2
  have hbeh : (i.tx.addAllHeaders i.w.headers).behavior.phase3 s i.proto = none := by
    rw [addAllHeaders_behavior]; exact h3
  simp only [RWI.WriteHeader, h1, Bool.false_eq_true, if_false]
  rw [processResponseHeaders_none _ s i.proto hint hbeh]

theorem writeHeader_interrupted_body (i : RWI) (s : Nat) (it : Interruption)
    (h : i.tx.interruption = some it) :
    (i.WriteHeader s).w.body = i.w.body
      ∧ (i.WriteHeader s).tx.interruption = some it := by
  cases hw : i.wroteHeader
  case true => rw [writeHeader_superfluous i s hw]; exact ⟨rfl, h⟩
  case false =>
    have hint : (i.tx.addAllHeaders i.w.headers).interruption = some it := by
      rw [addAllHeaders_interruption]; exact h
    simp only [RWI.WriteHeader, hw, Bool.false_eq_true, if_false]
    rw [processResponseHeaders_interrupted _ s _ it hint]
    simp only [flushWriteHeader_w_body, flushWriteHeader_tx,
      RWI.cleanHeaders, RWI.setHeader]
    exact ⟨trivial, hint⟩

theorem write_interrupted (i : RWI) (b : List Nat) (h : i.tx.IsInterrupted = true) :
    i.Write b = (i, 0, none) := by
  simp [RWI.Write, h]

theorem processResponse_interrupted (i : RWI) (h : i.tx.IsInterrupted = true) :
    processResponse i = (i, none) := by
  simp [processResponse, h]

theorem applyOp_interrupted (i : RWI) (op : Op) (h : i.tx.IsInterrupted = true) :
    (applyOp i op).w.body = i.w.body ∧ (applyOp i op).tx.IsInterrupted = true := by
  obtain ⟨it, hit⟩ := Option.isSome_iff_exists.mp h
  cases op with
  | writeHeader s =>
    obtain ⟨hb, hi⟩ := writeHeader_interrupted_body i s it hit
    refine ⟨hb, ?_⟩
    simp only [applyOp, Tx.IsInterrupted, hi, Option.isSome_some]
  | write b =>
    simp only [applyOp]
    rw [write_interrupted i b h]
    exact ⟨rfl, h⟩
  | flushError =>
    cases hw : i.wroteHeader
    case false =>
      obtain ⟨hb, hi⟩ := writeHeader_interrupted_body i 200 it hit
      have hF : RWI.FlushError i = (i.WriteHeader 200, none) := by
        simp [RWI.FlushError, hw]
      constructor
      · show (RWI.FlushError i).1.w.body = i.w.body
        rw [hF]; exact hb
      · show Tx.IsInterrupted (RWI.FlushError i).1.tx = true
        rw [hF]; simp [Tx.IsInterrupted, hi]
    case true =>
      have hF : RWI.FlushError i = (i, none) := by
        simp [RWI.FlushError, hw]
      constructor
      · show (RWI.FlushError i).1.w.body = i.w.body
        rw [hF]
      · show Tx.IsInterrupted (RWI.FlushError i).1.tx = true
        rw [hF]; exact h
  | flushHeader =>
    simp only [applyOp]
    refine ⟨flushWriteHeader_w_body i, ?_⟩
    rw [show i.flushWriteHeader.tx = i.tx from flushWriteHeader_tx i]
    exact h
  | procResponse =>
    simp only [applyOp]
    rw [processResponse_interrupted i h]
    exact ⟨rfl, h⟩

theorem runOps_interrupted (ops : List Op) :
    ∀ i : RWI, i.tx.IsInterrupted = true →
      (runOps i ops).w.body = i.w.body
        ∧ (runOps i ops).tx.IsInterrupted = true := by
  induction ops with
  | nil => intro i h; exact ⟨rfl, h⟩
  | cons op ops ih =>
    intro i h
    obtain ⟨hb, hi⟩ := applyOp_interrupted i op h
    obtain ⟨hb', hi'⟩ := ih (applyOp i op) hi
    exact ⟨by rw [runOps] at hb' ⊢; simpa [List.foldl_cons, hb] using hb', by
      rw [runOps] at hi' ⊢; simpa [List.foldl_cons] using hi'⟩

theorem flushInv_flushWriteHeader (i : RWI) (h : flushInv i) :
    flushInv i.flushWriteHeader := by
  cases hf : i.isWriteHeaderFlush
  · rw [flushWriteHeader_of_false i hf]
    unfold flushInv at h ⊢
    rw [hf] at h
    simp only [Bool.false_eq_true, if_false] at h
    simp [DWriter.WriteHeader, h]
  · rw [flushWriteHeader_of_true i hf]
    exact h

theorem flushInv_writeHeader (i : RWI) (s : Nat) (h : flushInv i) :
    flushInv (i.WriteHeader s) := by
  unfold RWI.WriteHeader
  dsimp only
  split
  · exact h
  · split
    · exact flushInv_flushWriteHeader _ h
    · exact h

theorem flushInv_write (i : RWI) (b : List Nat) (h : flushInv i) :
    flushInv (i.Write b).1 := by
  have hW : flushInv (i.WriteHeader 200) := flushInv_writeHeader i 200 h
  unfold RWI.Write
  dsimp only
  repeat' split
  all_goals
    first
      | exact h
      | exact hW
      | exact flushInv_flushWriteHeader _ h
      | exact flushInv_flushWriteHeader _ hW

theorem flushInv_flushError (i : RWI) (h : flushInv i) :
    flushInv (i.FlushError).1 := by
  unfold RWI.FlushError
  split
  · exact flushInv_writeHeader i 200 h
  · exact h

theorem flushInv_processResponse (i : RWI) (h : flushInv i) :
    flushInv (processResponse i).1 := by
  unfold processResponse
  dsimp only
  split
  · exact h
  · split
    · split
      · exact flushInv_flushWriteHeader _ h
      · exact flushInv_flushWriteHeader _ h
      · rename_i tx1 hok
        split
        · exact flushInv_flushWriteHeader _ h
        · exact flushInv_flushWriteHeader { i with tx := tx1 } h
    · exact flushInv_flushWriteHeader i h

theorem flushInv_applyOp (i : RWI) (op : Op) (h : flushInv i) :
    flushInv (applyOp i op) := by
  cases op
  case writeHeader s => exact flushInv_writeHeader i s h
  case write b => exact flushInv_write i b h
  case flushError => exact flushInv_flushError i h
  case flushHeader => exact flushInv_flushWriteHeader i h
  case procResponse => exact flushInv_processResponse i h

theorem flushInv_runOps (ops : List Op) :
    ∀ i : RWI, flushInv i → flushInv (runOps i ops) := by
  induction ops with
  | nil => intro i h; exact h
  | cons op ops ih =>
    intro i h
    exact ih (applyOp i op) (flushInv_applyOp i op h)

theorem countsEq_trans (a b c : Tx) (h1 : countsEq a b) (h2 : countsEq b c) :
    countsEq a c :=
  ⟨h2.1.trans h1.1, h2.2.trans h1.2⟩

theorem countsEq_addAllHeaders (tx : Tx) (hs : Headers) :
    countsEq tx (tx.addAllHeaders hs) :=
  ⟨addAllHeaders_loggingCount tx hs, addAllHeaders_closeCount tx hs⟩

theorem countsEq_processResponseHeaders (tx : Tx) (s : Nat) (p : String) :
    countsEq tx (tx.ProcessResponseHeaders s p).1 := by
  unfold Tx.ProcessResponseHeaders
  split
  · exact ⟨rfl, rfl⟩
  · split <;> exact ⟨rfl, rfl⟩

theorem countsEq_writeResponseBody (tx : Tx) (b : List Nat) :
    countsEq tx (tx.WriteResponseBody b).1 := by
  unfold Tx.WriteResponseBody
  split
  · exact ⟨rfl, rfl⟩
  · split <;> exact ⟨rfl, rfl⟩

theorem countsEq_processResponseBody (tx : Tx) :
    countsEq tx tx.ProcessResponseBody.1 := by
  unfold Tx.ProcessResponseBody
  split
  · exact ⟨rfl, rfl⟩
  · split <;> exact ⟨rfl, rfl⟩

theorem countsEq_flushWriteHeader (i : RWI) :
    countsEq i.tx i.flushWriteHeader.tx := by
  rw [flushWriteHeader_tx]
  exact ⟨rfl, rfl⟩

theorem countsEq_writeHeader (i : RWI) (s : Nat) :
    countsEq i.tx (i.WriteHeader s).tx := by
  unfold RWI.WriteHeader
  dsimp only
  split
  · exact ⟨rfl, rfl⟩
  · have h1 := countsEq_addAllHeaders i.tx i.w.headers
    split
    · rename_i heq
      have h2 := countsEq_processResponseHeaders
        (i.tx.addAllHeaders i.w.headers) s i.proto
      rw [heq] at h2
      exact countsEq_trans _ _ _ (countsEq_trans _ _ _ h1 h2)
        (countsEq_flushWriteHeader _)
    · rename_i heq
      have h2 := countsEq_processResponseHeaders
        (i.tx.addAllHeaders i.w.headers) s i.proto
      rw [heq] at h2
      exact countsEq_trans _ _ _ h1 h2

theorem countsEq_write (i : RWI) (b : List Nat) :
    countsEq i.tx (i.Write b).1.tx := by
  have hWH := countsEq_writeHeader i 200
  unfold RWI.Write
  dsimp only
  split
  · exact ⟨rfl, rfl⟩
  · split
    · -- implicit WriteHeader 200 happened
      split
      · split
        · rename_i heq
          have h2 := countsEq_writeResponseBody (i.WriteHeader 200).tx b
          rw [heq] at h2
          exact countsEq_trans _ _ _ (countsEq_trans _ _ _ hWH h2)
            (countsEq_flushWriteHeader _)
        · rename_i heq
          have h2 := countsEq_writeResponseBody (i.WriteHeader 200).tx b
          rw [heq] at h2
          exact countsEq_trans _ _ _ hWH h2
      · exact countsEq_trans _ _ _ hWH (countsEq_flushWriteHeader _)
    · -- header already recorded
      split
      · split
        · rename_i heq
          have h2 := countsEq_writeResponseBody i.tx b
          rw [heq] at h2
          exact countsEq_trans _ _ _ h2 (countsEq_flushWriteHeader _)
        · rename_i heq
          have h2 := countsEq_writeResponseBody i.tx b
          rw [heq] at h2
          exact h2
      · exact countsEq_flushWriteHeader i

theorem countsEq_flushError (i : RWI) :
    countsEq i.tx (i.FlushError).1.tx := by
  unfold RWI.FlushError
  split
  · exact countsEq_writeHeader i 200
  · exact ⟨rfl, rfl⟩

theorem countsEq_processResponse (i : RWI) :
    countsEq i.tx (processResponse i).1.tx := by
  unfold processResponse
  dsimp only
  split
  · exact ⟨rfl, rfl⟩
  · split
    · have h2 := countsEq_processResponseBody i.tx
      split
      · rename_i heq
        rw [heq] at h2
        exact countsEq_trans _ _ _ h2 (countsEq_flushWriteHeader _)
      · rename_i heq
        rw [heq] at h2
        exact countsEq_trans _ _ _ h2 (countsEq_flushWriteHeader _)
      · rename_i heq
        rw [heq] at h2
        split
        · exact countsEq_trans _ _ _ h2 (countsEq_flushWriteHeader _)
        · exact countsEq_trans _ _ _ h2 (countsEq_flushWriteHeader _)
    · exact countsEq_flushWriteHeader i

theorem countsEq_applyOp (i : RWI) (op : Op) :
    countsEq i.tx (applyOp i op).tx := by
  cases op
  case writeHeader s => exact countsEq_writeHeader i s
  case write b => exact countsEq_write i b
  case flushError => exact countsEq_flushError i
  case flushHeader => exact countsEq_flushWriteHeader i
  case procResponse => exact countsEq_processResponse i

theorem countsEq_runOps (ops : List Op) :
    ∀ i : RWI, countsEq i.tx (runOps i ops).tx := by
  induction ops with
  | nil => intro i; exact ⟨rfl, rfl⟩
  | cons op ops ih =>
    intro i
    exact countsEq_trans _ _ _ (countsEq_applyOp i op) (ih (applyOp i op))

theorem countsEq_processRequestOutcome (tx : Tx) :
    countsEq tx (processRequestOutcome tx).1 := by
  unfold processRequestOutcome
  split <;> exact ⟨rfl, rfl⟩

/-- C1: starting from a freshly reset interceptor over a downstream writer
    that has received no status line yet, any sequence of interceptor
    interactions — handler calls, direct flushes, the response phase
    driver — leaves the downstream writer with at most one status-line
    write: the `isWriteHeaderFlush` guard makes the flush idempotent on
    every path. -/
theorem c1_downstream_writeheader_at_most_once (tx : Tx) (pooled : RWI)
    (hs : Headers) (bd : List Nat) (proto : String) (ops : List Op) :
    (runOps (pooled.reset tx { headers := hs, statusWrites := [], body := bd } proto)
        ops).w.statusWrites.length ≤ 1 := by
  have h0 : flushInv (pooled.reset tx
      { headers := hs, statusWrites := [], body := bd } proto) := by
    simp [flushInv, RWI.reset]
  have h := flushInv_runOps ops _ h0
  unfold flushInv at h
  rw [h]
  split <;> simp

/-- C2: once the transaction carries a standing verdict, nothing more
    reaches the downstream writer: a `Write` returns (0, nil) leaving the
    state untouched, the response phase driver returns immediately, and no
    sequence of further interceptor interactions changes the downstream
    body (and the verdict stands throughout). -/
theorem c2_interrupted_discards_all (i : RWI) (b : List Nat) (ops : List Op)
    (h : i.tx.IsInterrupted = true) :
    i.Write b = (i, 0, none)
      ∧ processResponse i = (i, none)
      ∧ (runOps i ops).w.body = i.w.body
      ∧ (runOps i ops).tx.IsInterrupted = true := by
  obtain ⟨hb, hi⟩ := runOps_interrupted ops i h
  exact ⟨write_interrupted i b h, processResponse_interrupted i h, hb, hi⟩

/-- C2, witnessed on a state with a standing deny verdict: a write of two
    bytes is discarded and a write-then-drive sequence leaves the
    downstream body untouched. -/
theorem c2_interrupted_discards_all_witness :
    interruptedState.tx.IsInterrupted = true
      ∧ interruptedState.Write [1, 2] = (interruptedState, 0, none)
      ∧ (runOps interruptedState [Op.write [1, 2], Op.procResponse]).w.body
          = interruptedState.w.body :=
  ⟨rfl,
    (c2_interrupted_discards_all interruptedState [1, 2]
      [Op.write [1, 2], Op.procResponse] rfl).1,
    (c2_interrupted_discards_all interruptedState [1, 2]
      [Op.write [1, 2], Op.procResponse] rfl).2.2.1⟩

/-- C3: when the response-body phase yields a verdict over a non-empty
    buffered body and the status line is still deferred, the driver reports
    no error, the downstream writer receives exactly the verdict-resolved
    status, the headers collapse to Content-Length: 0, and none of the
    buffered bytes are written downstream. -/
theorem c3_response_body_verdict_blocks_buffered (i : RWI) (it : Interruption)
    (h1 : i.tx.interruption = none)
    (h2 : i.tx.behavior.respBodyAccessible = true)
    (h3 : i.tx.behavior.respBodyProcessable = true)
    (h4 : i.tx.behavior.phase4 = .ok (some it))
    (h5 : i.isWriteHeaderFlush = false)
    (h6 : 0 < i.tx.respBuffer.length) :
    (processResponse i).2 = none
      ∧ (processResponse i).1.w.statusWrites
          = i.w.statusWrites
              ++ [obtainStatusCodeFromInterruptionOrDefault it i.statusCode]
      ∧ (processResponse i).1.w.headers = [("Content-Length", ["0"])]
      ∧ (processResponse i).1.w.body = i.w.body := by
  have hInt : i.tx.IsInterrupted = false := by
    simp [Tx.IsInterrupted, h1]
  have hAcc : i.tx.IsResponseBodyAccessible = true := h2
  have hPr : i.tx.IsResponseBodyProcessable = true := h3
  have hP := processResponseBody_verdict i.tx it h1 h4
  refine ⟨?_, ?_, ?_, ?_⟩
  · simp only [processResponse]
    rw [hInt, hAcc, hPr, hP]
    rfl
  · simp only [processResponse]
    rw [hInt, hAcc, hPr, hP]
    exact flushWriteHeader_statusWrites_of_false _ h5
  · simp only [processResponse]
    rw [hInt, hAcc, hPr, hP]
    exact (flushWriteHeader_w_headers _).trans
      (hdrSet_hdrClean i.w.headers "Content-Length" "0")
  · simp only [processResponse]
    rw [hInt, hAcc, hPr, hP]
    exact flushWriteHeader_w_body _

/-- C3, witnessed on a state with three buffered bytes and a deny verdict
    from the response-body phase: status 403 goes downstream, zero body
    bytes do. -/
theorem c3_response_body_verdict_blocks_buffered_witness :
    bufferedState.tx.interruption = none
      ∧ bufferedState.tx.behavior.phase4 = .ok (some denyAll)
      ∧ 0 < bufferedState.tx.respBuffer.length
      ∧ (processResponse bufferedState).1.w.body = bufferedState.w.body :=
  ⟨rfl, rfl, by decide,
    (c3_response_body_verdict_blocks_buffered bufferedState denyAll
      rfl rfl rfl rfl rfl (by decide)).2.2.2⟩

/-- C7: when the response-body phase fails (an error, not a verdict) while
    the status line is still deferred, the driver forces status 500,
    flushes exactly that status downstream, reports the failure upward,
    and copies no body bytes. -/
theorem c7_response_phase_failure_forces_500 (i : RWI) (e : String)
    (h1 : i.tx.interruption = none)
    (h2 : i.tx.behavior.respBodyAccessible = true)
    (h3 : i.tx.behavior.respBodyProcessable = true)
    (h4 : i.tx.behavior.phase4 = .error e)
    (h5 : i.isWriteHeaderFlush = false) :
    (processResponse i).2 = some e
      ∧ (processResponse i).1.statusCode = 500
      ∧ (processResponse i).1.w.statusWrites = i.w.statusWrites ++ [500]
      ∧ (processResponse i).1.w.body = i.w.body := by
  have hInt : i.tx.IsInterrupted = false := by
    simp [Tx.IsInterrupted, h1]
  have hAcc : i.tx.IsResponseBodyAccessible = true := h2
  have hPr : i.tx.IsResponseBodyProcessable = true := h3
  have hP := processResponseBody_failure i.tx e h1 h4
  refine ⟨?_, ?_, ?_, ?_⟩
  · simp only [processResponse]
    rw [hInt, hAcc, hPr, hP]
    rfl
  · simp only [processResponse]
    rw [hInt, hAcc, hPr, hP]
    exact flushWriteHeader_statusCode _
  · simp only [processResponse]
    rw [hInt, hAcc, hPr, hP]
    exact flushWriteHeader_statusWrites_of_false _ h5
  · simp only [processResponse]
    rw [hInt, hAcc, hPr, hP]
    exact flushWriteHeader_w_body _

/-- C7, witnessed on a fresh state whose response-body phase fails: the
    failure is reported and the downstream writer receives exactly the
    forced 500 status. -/
theorem c7_response_phase_failure_forces_500_witness :
    phase4FailState.tx.behavior.phase4 = .error "response body phase failure"
      ∧ (processResponse phase4FailState).2 = some "response body phase failure"
      ∧ (processResponse phase4FailState).1.w.statusWrites
          = phase4FailState.w.statusWrites ++ [500] :=
  ⟨rfl,
    (c7_response_phase_failure_forces_500 phase4FailState
      "response body phase failure" rfl rfl rfl rfl rfl).1,
    (c7_response_phase_failure_forces_500 phase4FailState
      "response body phase failure" rfl rfl rfl rfl rfl).2.2.1⟩

/-- C5: the verdict-to-status resolver is pure and case-complete: a "deny"
    verdict with no explicit status (0) resolves to 403; a "deny" verdict
    with an explicit status resolves to that status; any other action
    leaves the fallback status unchanged. -/
theorem c5_obtain_status_code_resolver (it : Interruption) (fallback : Nat) :
    obtainStatusCodeFromInterruptionOrDefault it fallback
      = if it.action = "deny" then
          (if it.status = 0 then 403 else it.status)
        else fallback := rfl

/-- C9: after `reset`, a pooled interceptor instance is observably fresh:
    `Written` is false, `Size` is 0, the size field holds the `notWritten`
    sentinel, the recorded status is the default 200, and neither the
    header-recorded flag nor the header-flushed flag is set — independent
    of whatever previous-request state the instance still carried. -/
theorem c9_reset_fresh_state (i : RWI) (tx : Tx) (w : DWriter) (proto : String) :
    (i.reset tx w proto).Written = false
      ∧ (i.reset tx w proto).Size = 0
      ∧ (i.reset tx w proto).size = notWritten
      ∧ (i.reset tx w proto).statusCode = 200
      ∧ (i.reset tx w proto).wroteHeader = false
      ∧ (i.reset tx w proto).isWriteHeaderFlush = false := by
  refine ⟨?_, ?_, rfl, rfl, rfl, rfl⟩
  · simp [RWI.reset, RWI.Written, notWritten]
  · simp [RWI.reset, RWI.Size, notWritten]

/-- C6 counterexample: for the portless remote address "192.168.1.1" the
    code passes the empty string as the client host to the connection
    phase — the host part is dropped, not preserved as the claim states. -/
theorem c6_counterexample :
    (splitRemoteAddr ("192.168.1.1".toList)).1 = []
      ∧ ("192.168.1.1".toList : List Char) ≠ [] := by
  constructor
  · rfl
  · decide

/-- C6 amended: when the remote address contains no port separator, the
    request phase driver passes the empty host and port 0 to the
    connection-phase evaluation — both the host and the port are dropped,
    not just the port. -/
theorem c6_no_separator_drops_host_and_port (remoteAddr : List Char)
    (h : lastIndexByte remoteAddr ':' = none) :
    splitRemoteAddr remoteAddr = ([], 0) := by
  simp [splitRemoteAddr, h]

/-- C6 amended, witnessed at the concrete portless address. -/
theorem c6_no_separator_drops_host_and_port_witness :
    lastIndexByte ("192.168.1.1".toList) ':' = none
      ∧ splitRemoteAddr ("192.168.1.1".toList) = ([], 0) :=
  ⟨by decide, c6_no_separator_drops_host_and_port ("192.168.1.1".toList) (by decide)⟩

/-- C4: with no verdict from the response-header phase, recording status A
    and then status B leaves A recorded: the second call changes nothing
    (first recorded header wins), no status has been transmitted during
    recording, and a flush then delivers exactly one status line with A —
    repeating the flush changes nothing. -/
theorem c4_first_recorded_header_wins (i : RWI) (A B : Nat)
    (h1 : i.wroteHeader = false) (h2 : i.isWriteHeaderFlush = false)
    (h3 : i.tx.interruption = none)
    (h4 : i.tx.behavior.phase3 A i.proto = none) :
    (i.WriteHeader A).statusCode = A
      ∧ (i.WriteHeader A).wroteHeader = true
      ∧ (i.WriteHeader A).w.statusWrites = i.w.statusWrites
      ∧ (i.WriteHeader A).WriteHeader B = i.WriteHeader A
      ∧ ((i.WriteHeader A).flushWriteHeader).w.statusWrites
          = i.w.statusWrites ++ [A]
      ∧ ((i.WriteHeader A).flushWriteHeader).flushWriteHeader
          = (i.WriteHeader A).flushWriteHeader := by
  rw [writeHeader_no_verdict i A h1 h3 h4]
  refine ⟨rfl, rfl, rfl, writeHeader_superfluous _ B rfl, ?_, ?_⟩
  · exact flushWriteHeader_statusWrites_of_false _ h2
  · exact flushWriteHeader_idem _

/-- C4 witness: a fresh interceptor over a quiet engine, statuses 201 then
    500 — the downstream writer receives exactly one status line, 201. -/
theorem c4_first_recorded_header_wins_witness :
    (mkState quietBehavior).wroteHeader = false
      ∧ (mkState quietBehavior).isWriteHeaderFlush = false
      ∧ (mkState quietBehavior).tx.interruption = none
      ∧ (mkState quietBehavior).tx.behavior.phase3 201 (mkState quietBehavior).proto = none
      ∧ (((mkState quietBehavior).WriteHeader 201).flushWriteHeader).w.statusWrites
          = (mkState quietBehavior).w.statusWrites ++ [201] :=
  ⟨rfl, rfl, rfl, rfl,
    (c4_first_recorded_header_wins (mkState quietBehavior) 201 500
      rfl rfl rfl rfl).2.2.2.2.1⟩

/-- C10 counterexample: from a fresh state whose response-header phase
    denies, `FlushError` does transmit a status line (the resolved 403) to
    the downstream writer — refuting "never transmits the status line". -/
theorem c10_counterexample :
    (phase3DenyState.FlushError).1.w.statusWrites = [403]
      ∧ phase3DenyState.w.statusWrites = [] := by
  exact ⟨rfl, rfl⟩

/-- C10 amended: `FlushError` always returns nil; when no header has been
    recorded its only effect is the implicit `WriteHeader 200`, and as long
    as the response-header phase raises no verdict this commits nothing to
    the downstream writer (no status line, no body, headers untouched) —
    but when that phase raises a verdict the resolved status line is
    flushed downstream. -/
theorem c10_flush_error_commits_nothing (i : RWI)
    (h1 : i.wroteHeader = false) (h2 : i.tx.interruption = none)
    (h3 : i.tx.behavior.phase3 200 i.proto = none) :
    i.FlushError = (i.WriteHeader 200, none)
      ∧ (i.FlushError).2 = none
      ∧ (i.FlushError).1.w.statusWrites = i.w.statusWrites
      ∧ (i.FlushError).1.w.body = i.w.body
      ∧ (i.FlushError).1.w.headers = i.w.headers
      ∧ (i.FlushError).1.wroteHeader = true
      ∧ (i.FlushError).1.statusCode = 200 := by
  have hF : i.FlushError = (i.WriteHeader 200, none) := by
    simp [RWI.FlushError, h1]
  rw [hF, writeHeader_no_verdict i 200 h1 h2 h3]
  exact ⟨rfl, rfl, rfl, rfl, rfl, rfl, rfl⟩

/-- C10 amended, witnessed on a fresh interceptor over a quiet engine. -/
theorem c10_flush_error_commits_nothing_witness :
    (mkState quietBehavior).wroteHeader = false
      ∧ (mkState quietBehavior).tx.interruption = none
      ∧ (mkState quietBehavior).tx.behavior.phase3 200 (mkState quietBehavior).proto = none
      ∧ ((mkState quietBehavior).FlushError).1.w.statusWrites
          = (mkState quietBehavior).w.statusWrites :=
  ⟨rfl, rfl, rfl,
    (c10_flush_error_commits_nothing (mkState quietBehavior) rfl rfl rfl).2.2.1⟩

/-- C8: the transaction's finalisation pair — `ProcessLogging` (phase 5)
    then `Close` (resource release) — runs exactly once per request on
    every exit path of `Intercept`: engine-disabled pass-through,
    request-phase failure, request-phase blocking verdict, and the
    interceptor path (whatever the handler and the response phase do,
    including response-phase failures). -/
theorem c8_logging_and_close_once (behavior : TxBehavior) (handlerOps : List Op)
    (pooled : RWI) (cw : DWriter) (proto : String) :
    (Intercept behavior handlerOps pooled cw proto).tx.loggingCount = 1
      ∧ (Intercept behavior handlerOps pooled cw proto).tx.closeCount = 1 := by
  unfold Intercept
  dsimp only
  split
  · exact ⟨rfl, rfl⟩
  · split
    · rename_i heq
      have h0 := countsEq_processRequestOutcome ({ behavior := behavior } : Tx)
      rw [heq] at h0
      unfold finishTx Tx.ProcessLogging Tx.Close
      exact ⟨by rw [h0.1], by rw [h0.2]⟩
    · rename_i heq
      have h0 := countsEq_processRequestOutcome ({ behavior := behavior } : Tx)
      rw [heq] at h0
      unfold finishTx Tx.ProcessLogging Tx.Close
      exact ⟨by rw [h0.1], by rw [h0.2]⟩
    · rename_i tx1 heq
      have h0 := countsEq_processRequestOutcome ({ behavior := behavior } : Tx)
      rw [heq] at h0
      have h1 := countsEq_runOps handlerOps (pooled.reset tx1 cw proto)
      have h2 := countsEq_processResponse
        (runOps (pooled.reset tx1 cw proto) handlerOps)
      have h3 : countsEq ({ behavior := behavior } : Tx)
          (processResponse (runOps (pooled.reset tx1 cw proto) handlerOps)).1.tx :=
        countsEq_trans _ _ _ h0 (countsEq_trans _ _ _ h1 h2)
      unfold finishTx Tx.ProcessLogging Tx.Close
      exact ⟨by rw [h3.1], by rw [h3.2]⟩

end Foxwaf
